import Mathlib

/-!
Shallow embedding of the MCP server of this repository
(`src/mcp_server/server.py` and `src/mcp_server/services/mcp_server.py`):
JSON values, the session store, the JSON-RPC handlers and the single HTTP
dispatch endpoint, together with theorems about the behaviour claimed in
the specification.
-/

/-- JSON values as passed around in the Python dictionaries. -/
inductive Json where
  | null : Json
  | bool (b : Bool) : Json
  | str (s : String) : Json
  | num (n : Int) : Json
  | arr (elems : List Json) : Json
  | obj (fields : List (String × Json)) : Json

/-- A JSON object: an association list of string keys, first binding wins
(Python dicts have unique keys; lookups take the first match). -/
abbrev JObj := List (String × Json)

/-- `d.get(k)` on a Python dict: `none` when the key is absent. -/
def dict_get {α : Type} (m : List (String × α)) (k : String) : Option α :=
  match m with
  | [] => none
  | (k0, v0) :: rest => if k0 == k then some v0 else dict_get rest k

/-- `d[k] = v` on a Python dict: overwrite the binding if present,
append it otherwise. -/
def dict_set {α : Type} (m : List (String × α)) (k : String) (v : α) :
    List (String × α) :=
  match m with
  | [] => [(k, v)]
  | (k0, v0) :: rest =>
      if k0 == k then (k, v) :: rest else (k0, v0) :: dict_set rest k v

/-- `params.get(key)` on a JSON object. -/
def jget (o : JObj) (k : String) : Option Json := dict_get o k

/-- Python falsiness of a JSON value (`not x`). -/
def py_falsy : Json → Bool
  | Json.null => true
  | Json.bool b => !b
  | Json.str s => s == ""
  | Json.num n => n == 0
  | Json.arr elems => elems.isEmpty
  | Json.obj fields => fields.isEmpty

/-- Python truthiness of an optional JSON object (`if request.params`):
false for `None` and for the empty dict. -/
def py_truthy_obj (o : Option JObj) : Bool :=
  match o with
  | none => false
  | some fields => !fields.isEmpty

/-- Python truthiness of the result of a `.get` call
(`if not tool_name`). -/
def py_truthy_get (o : Option Json) : Bool :=
  match o with
  | none => false
  | some j => !(py_falsy j)

/-- Python `str()` rendering of a JSON value, as interpolated by an
f-string (only the string case is reached by the claims). -/
def py_str : Json → String
  | Json.null => "None"
  | Json.bool b => if b then "True" else "False"
  | Json.str s => s
  | Json.num n => toString n
  | Json.arr _ => "[...]"
  | Json.obj _ => "\x7b...\x7d"

/-- Python `pat in s` substring test on character lists. -/
def chars_contain (pat : List Char) : List Char → Bool
  | [] => pat.isEmpty
  | c :: rest => List.isPrefixOf pat (c :: rest) || chars_contain pat rest

/-- Python `pat in s` substring test on strings. -/
def py_in_str (pat s : String) : Bool := chars_contain pat.data s.data

/-- Python `s.split(",")`: split at every comma, keeping empty pieces
(the empty string yields one empty piece). -/
def py_split_comma : List Char → List (List Char)
  | [] => [[]]
  | c :: rest =>
      match py_split_comma rest with
      | [] => [[]]
      | grp :: grps =>
          if c == ',' then [] :: grp :: grps else (c :: grp) :: grps

/-- The whitespace stripped by Python's `str.strip()` (ASCII range). -/
def is_py_space (c : Char) : Bool :=
  c == ' ' || c == '\t' || c == '\n' || c == '\r' ||
  c == (Char.ofNat 11) || c == (Char.ofNat 12)

/-- Python `s.strip()`: remove leading and trailing whitespace. -/
def py_strip (cs : List Char) : List Char :=
  ((cs.dropWhile is_py_space).reverse.dropWhile is_py_space).reverse

/-- Python `s.lower()` (ASCII range). -/
def py_lower (cs : List Char) : List Char := cs.map Char.toLower

/-- `_validate_accept_header` from `src/mcp_server/server.py`: the header
must be present and, after splitting on commas, trimming and lowercasing,
some element must contain `application/json` and some element must
contain `text/event-stream`. -/
def validate_accept_header : Option String → Bool
  | none => false
  | some h =>
      if h == "" then false
      else
        let accept_types :=
          (py_split_comma h.data).map (fun t => py_lower (py_strip t))
        let has_json :=
          accept_types.any (fun t => chars_contain "application/json".data t)
        let has_sse :=
          accept_types.any (fun t => chars_contain "text/event-stream".data t)
        has_json && has_sse

/-- The content-negotiation condition exactly as the specification words
it: after splitting the `Accept` header on commas and trimming and
lowercasing each element, some element contains `application/json` as a
substring and some element contains `text/event-stream` as a substring;
an absent header is never accepted. -/
def accept_header_spec : Option String → Bool
  | none => false
  | some h =>
      let elems := (py_split_comma h.data).map (fun t => py_lower (py_strip t))
      (elems.any (fun t => chars_contain "application/json".data t)) &&
      (elems.any (fun t => chars_contain "text/event-stream".data t))

/-- Lowercase hexadecimal digit for a value below 16, as produced by
Python's `%x` formatting. -/
def hex_digit (n : Nat) : Char :=
  if n < 10 then Char.ofNat (48 + n) else Char.ofNat (87 + n)

/-- The `w` low-order hexadecimal digits of `n`, most significant first,
zero-padded: Python's `%0wx % n` for `n < 16 ^ w`. -/
def hex_digits : Nat → Nat → List Char
  | 0, _ => []
  | w + 1, n => hex_digits w (n / 16) ++ [hex_digit (n % 16)]

/-- The integer value of a version-4 UUID built from 128 random bits `r`:
`uuid.uuid4()` forces the version nibble (bits 76–79) to `4` and the
variant bits (62–63) to `10`. -/
def uuid4_int (r : Nat) : Nat :=
  let x := r % 2 ^ 128
  let x := (x &&& (2 ^ 128 - 1 - 15 * 2 ^ 76)) ||| (4 * 2 ^ 76)
  (x &&& (2 ^ 128 - 1 - 3 * 2 ^ 62)) ||| (2 * 2 ^ 62)

/-- `str(uuid.uuid4())` for random bits `r`: the 32 hex digits grouped
8-4-4-4-12 with dashes. -/
def uuid_string_chars (r : Nat) : List Char :=
  let h := hex_digits 32 (uuid4_int r)
  h.take 8 ++ ['-'] ++ (h.drop 8).take 4 ++ ['-'] ++ (h.drop 12).take 4 ++
    ['-'] ++ (h.drop 16).take 4 ++ ['-'] ++ h.drop 20

/-- Python `s.replace("-", "")`: with a one-character pattern and empty
replacement this removes every dash. -/
def py_replace_dash (cs : List Char) : List Char :=
  cs.filter (fun c => !(c == '-'))

/-- `str(uuid.uuid4()).replace("-", "")` from `handle_initialize`: the
session id generated from random bits `r`. -/
def session_id_of (r : Nat) : String :=
  String.mk (py_replace_dash (uuid_string_chars r))

/-- Whether a character is a lowercase hexadecimal digit. -/
def is_hex_char (c : Char) : Bool :=
  (('0' ≤ c) && (c ≤ '9')) || (('a' ≤ c) && (c ≤ 'f'))

/-- `MCPRequest` (`src/mcp_server/models/request.py`, not under `src/`).
Modelled from the spec: a JSON-RPC request has an opaque echoed `id`, a
string `method` and an optional key-value `params` map. -/
structure MCPRequest where
  id : Json
  method : String
  params : Option JObj

/-- `ErrorResponse` (`src/mcp_server/models/response.py`, not under
`src/`). Modelled from the spec: a JSON-RPC error has an integer `code`
and a string `message`. -/
structure ErrorResponse where
  code : Int
  message : String

/-- `MCPResponse` (`src/mcp_server/models/response.py`, not under
`src/`). Modelled from the spec: a JSON-RPC response carries the `id` and
at most one of `result` and `error`. -/
structure MCPResponse where
  id : Json
  result : Option Json := none
  error : Option ErrorResponse := none

/-- `MCPSession` from `src/mcp_server/services/mcp_server.py`:
`ready_for_operation` starts false; creation and activity times are
recorded from the event-loop clock. -/
structure MCPSession where
  session_id : String
  ready_for_operation : Bool
  created_at : Nat
  last_activity : Nat

/-- A registered tool: its MCP wire description (`to_mcp_tool()`) and its
asynchronous `execute`, modelled as a state transformer over the external
user-service state `σ` that either returns text or raises an exception
message. -/
structure Tool (σ : Type) where
  name : String
  mcp_tool : Json
  execute : Json → σ → Except String String × σ

/-- `MCPServer._register_tools`: the registry dict keyed by `tool.name`,
built by iterating over the startup list. -/
def register_tools {σ : Type} (ts : List (Tool σ)) : List (String × Tool σ) :=
  ts.foldl (fun m t => dict_set m t.name t) []

/-- `self.protocol_version` of `MCPServer`. -/
def server_protocol_version : String := "2024-11-05"

/-- `self.server_info` of `MCPServer`. -/
def server_info : Json :=
  Json.obj [("name", Json.str "custom-ums-mcp-server"),
            ("version", Json.str "1.0.0")]

/-- `MCPServer._validate_protocol_version`: echo a supported
client-proposed version, otherwise substitute the server's own version.
(Defined in the source but never invoked by `handle_initialize`.) -/
def validate_protocol_version (client_version : String) : String :=
  let supported_versions := ["2024-11-05"]
  if supported_versions.contains client_version then client_version
  else server_protocol_version

/-- The session store `self.sessions`. -/
abbrev SessionMap := List (String × MCPSession)

/-- `MCPServer.get_session`: look the session up and, when found, update
its `last_activity` to the current clock (an in-place mutation of the
stored object, so the store is updated too). -/
def get_session (clock : Nat) (sessions : SessionMap) (sid : String) :
    Option MCPSession × SessionMap :=
  match dict_get sessions sid with
  | none => (none, sessions)
  | some s =>
      let s' := { s with last_activity := clock }
      (some s', dict_set sessions sid s')

/-- `MCPServer.handle_initialize`: create a fresh session from random
bits `rand` at time `clock`, store it, and answer with the
protocol-version/capabilities/server-info result. The protocol version is
`request.params.get("protocolVersion")` when `params` is truthy,
otherwise the server's own version. Returns the response, the new session
id and the updated store. -/
def handle_initialize (rand clock : Nat) (request : MCPRequest)
    (sessions : SessionMap) : MCPResponse × String × SessionMap :=
  let session_id := session_id_of rand
  let session : MCPSession :=
    { session_id := session_id, ready_for_operation := false,
      created_at := clock, last_activity := clock }
  let sessions' := dict_set sessions session_id session
  let protocol_version : Json :=
    if py_truthy_obj request.params then
      ((jget (request.params.getD []) "protocolVersion").getD Json.null)
    else Json.str server_protocol_version
  let response : MCPResponse :=
    { id := request.id,
      result := some (Json.obj
        [("protocolVersion", protocol_version),
         ("capabilities", Json.obj
           [("tools", Json.obj []), ("resources", Json.obj []),
            ("prompts", Json.obj [])]),
         ("serverInfo", server_info)]) }
  (response, session_id, sessions')

/-- `MCPServer.handle_tools_list`: the MCP wire descriptions of every
registered tool, in registry order. -/
def handle_tools_list {σ : Type} (tools : List (String × Tool σ))
    (request : MCPRequest) : MCPResponse :=
  let tools_list := tools.map (fun pr => pr.2.mcp_tool)
  { id := request.id, result := some (Json.obj [("tools", Json.arr tools_list)]) }

/-- The `{content: [{type: "text", text}]}` result shape for a successful
tool call. -/
def tool_call_success (text : String) : Json :=
  Json.obj [("content", Json.arr
    [Json.obj [("type", Json.str "text"), ("text", Json.str text)]])]

/-- The `{content: [...], isError: true}` result shape for a tool
execution failure. -/
def tool_call_failure (message : String) : Json :=
  Json.obj [("content", Json.arr
    [Json.obj [("type", Json.str "text"),
               ("text", Json.str ("Tool execution error: " ++ message))]]),
    ("isError", Json.bool true)]

/-- Tool lookup for `tool_name in self.tools`: the registry is keyed by
strings, so only a string value can match. -/
def tool_lookup {σ : Type} (tools : List (String × Tool σ)) :
    Option Json → Option (Tool σ)
  | some (Json.str s) => dict_get tools s
  | _ => none

/-- `MCPServer.handle_tools_call`: reject a missing/empty `params` with
error code `32602`, a falsy `name` with `32602`, an unregistered name
with `32601`; otherwise execute the tool against the user-service state,
wrapping success and execution failure alike as a *result*. -/
def handle_tools_call {σ : Type} (tools : List (String × Tool σ))
    (request : MCPRequest) (us : σ) : MCPResponse × σ :=
  if !(py_truthy_obj request.params) then
    ({ id := request.id,
       error := some { code := 32602, message := "Missing parameters" } }, us)
  else
    let p := request.params.getD []
    let tool_name := jget p "name"
    let arguments := (jget p "arguments").getD (Json.obj [])
    if !(py_truthy_get tool_name) then
      ({ id := request.id,
         error := some { code := 32602,
                         message := "Missing required parameter: name" } }, us)
    else
      match tool_lookup tools tool_name with
      | none =>
          let msg := "Tool \x27" ++ py_str (tool_name.getD Json.null) ++
            "\x27 not found"
          ({ id := request.id,
             error := some { code := 32601, message := msg } }, us)
      | some tool =>
          match tool.execute arguments us with
          | (Except.ok text, us') =>
              ({ id := request.id, result := some (tool_call_success text) }, us')
          | (Except.error e, us') =>
              ({ id := request.id, result := some (tool_call_failure e) }, us')

/-- `_create_sse_stream` from `src/mcp_server/server.py`: one
`data: <payload>\n\n` frame per message (awaitable messages are awaited
first; `serialize` stands for the JSON serialization of the resolved
object), then the `data: [DONE]\n\n` sentinel. -/
def create_sse_stream {α : Type} (serialize : α → String) :
    List α → List String
  | [] => ["data: [DONE]\n\n"]
  | m :: rest =>
      ("data: " ++ serialize m ++ "\n\n") :: create_sse_stream serialize rest

/-- The body of an HTTP reply from the endpoint: a plain JSON-serialized
`MCPResponse`, a plain-text body, an SSE stream of JSON-RPC responses
(`StreamingResponse` over `_create_sse_stream`), or the empty body of the
bare 202. -/
inductive HttpBody where
  | json_resp (r : MCPResponse) : HttpBody
  | text (s : String) : HttpBody
  | sse (rs : List MCPResponse) : HttpBody
  | empty : HttpBody

/-- Whether a body is SSE-framed. -/
def is_sse_body : HttpBody → Bool
  | HttpBody.sse _ => true
  | _ => false

/-- An HTTP reply: status, headers, media type and body. -/
structure HttpResponse where
  status : Nat
  headers : List (String × String)
  media_type : Option String
  body : HttpBody

/-- The mutable server state shared across requests: the session store
and the external user-service state `σ` touched by tool executions. -/
structure ServerState (σ : Type) where
  sessions : SessionMap
  user_state : σ

/-- The `MCPResponse(id="server-error", error=...)` replies of the
endpoint. -/
def server_error_response (code : Int) (message : String) : MCPResponse :=
  { id := Json.str "server-error",
    error := some { code := code, message := message } }

/-- The 406 reply for a failed content negotiation: plain JSON, not
SSE-framed. -/
def not_acceptable_response : HttpResponse :=
  { status := 406, headers := [],
    media_type := some "application/json",
    body := HttpBody.json_resp (server_error_response (-32600)
      "Client must accept both application/json and text/event-stream") }

/-- The 400 reply carrying the `Missing session ID` JSON-RPC error:
plain JSON, not SSE-framed. -/
def missing_session_response : HttpResponse :=
  { status := 400, headers := [],
    media_type := some "application/json",
    body := HttpBody.json_resp (server_error_response (-32600)
      "Missing session ID") }

/-- The `StreamingResponse` wrapper: SSE media type, cache/keep-alive
headers and the session-id header. -/
def sse_response (sid : Option String) (r : MCPResponse) : HttpResponse :=
  let base := [("Cache-Control", "no-cache"), ("Connection", "keep-alive")]
  { status := 200,
    headers := base ++ (match sid with
      | some s => [("Mcp-Session-Id", s)]
      | none => []),
    media_type := some "text/event-stream",
    body := HttpBody.sse [r] }

/-- `handle_mcp_request` from `src/mcp_server/server.py`: the single POST
endpoint. `rand` feeds the uuid generator, `clock` the event-loop time,
`accept` and `mcp_session_id` are the incoming headers. Returns the HTTP
reply and the new server state. -/
def handle_mcp_request {σ : Type} (tools : List (String × Tool σ))
    (rand clock : Nat) (request : MCPRequest)
    (accept mcp_session_id : Option String) (st : ServerState σ) :
    HttpResponse × ServerState σ :=
  if !(validate_accept_header accept) then
    (not_acceptable_response, st)
  else if request.method == "initialize" then
    let init := handle_initialize rand clock request st.sessions
    let mcp_response := init.1
    let session_id := init.2.1
    let msid := if session_id == "" then mcp_session_id else some session_id
    (sse_response msid mcp_response, { st with sessions := init.2.2 })
  else
    let sid_ok := match mcp_session_id with
      | none => false
      | some s => !(s == "")
    if !sid_ok then
      (missing_session_response, st)
    else
      let sid := mcp_session_id.getD ""
      let looked := get_session clock st.sessions sid
      let sessions' := looked.2
      match looked.1 with
      | none =>
          ({ status := 400, headers := [], media_type := none,
             body := HttpBody.text "No valid session ID provided" },
           { st with sessions := sessions' })
      | some session =>
          if request.method == "notifications/initialized" then
            let sessions'' := dict_set sessions' sid
              { session with ready_for_operation := true }
            ({ status := 202, headers := [("Mcp-Session-Id", session.session_id)],
               media_type := none, body := HttpBody.empty },
             { st with sessions := sessions'' })
          else if !session.ready_for_operation then
            (missing_session_response, { st with sessions := sessions' })
          else if request.method == "tools/list" then
            (sse_response mcp_session_id (handle_tools_list tools request),
             { st with sessions := sessions' })
          else if request.method == "tools/call" then
            let called := handle_tools_call tools request st.user_state
            (sse_response mcp_session_id called.1,
             { st with sessions := sessions', user_state := called.2 })
          else
            let msg := "Method \x27" ++ request.method ++ "\x27 not found"
            (sse_response mcp_session_id
              { id := request.id, error := some { code := -32602, message := msg } },
             { st with sessions := sessions' })

/-- The `protocolVersion` entry of an initialization result. -/
def init_result_protocol_version (resp : MCPResponse) : Option Json :=
  match resp.result with
  | some (Json.obj fields) => jget fields "protocolVersion"
  | _ => none

/-- A concrete tool for evaluating the handlers: `execute` is modelled as
bumping a counter standing for the external user-service state, so any
invocation is visible as a state change. -/
def demo_tool (nm : String) : Tool Nat :=
  { name := nm, mcp_tool := Json.obj [("name", Json.str nm)],
    execute := fun _ s => (Except.ok ("ran " ++ nm), s + 1) }

/-- The registry built by `MCPServer._register_tools`, instantiated with
demo executes: tool names `get_user_by_id`, `search_users`, `add_user`,
`delete_users` are taken from the tool sources; `update_user` stands for
the update tool, whose source file is absent from the copy at hand. -/
def demo_registry : List (String × Tool Nat) :=
  register_tools
    [demo_tool "get_user_by_id", demo_tool "search_users",
     demo_tool "add_user", demo_tool "update_user", demo_tool "delete_users"]

/-! ## Basic lemmas about the dictionary model -/

theorem dict_get_dict_set {α : Type} (m : List (String × α)) (k i : String)
    (v : α) :
    dict_get (dict_set m k v) i = if k == i then some v else dict_get m i := by
  induction m with
  | nil => simp [dict_get, dict_set]
  | cons pr rest ih =>
      obtain ⟨k0, v0⟩ := pr
      by_cases h0 : k0 = k
      · subst h0
        simp only [dict_set, beq_self_eq_true, if_true, dict_get]
        by_cases hi : k0 = i
        · subst hi; simp
        · simp [beq_eq_false_iff_ne.mpr hi]
      · simp only [dict_set, beq_eq_false_iff_ne.mpr h0, Bool.false_eq_true,
          if_false, dict_get]
        by_cases hi : k0 = i
        · subst hi
          have hk : ¬(k = k0) := fun he => h0 he.symm
          simp [beq_eq_false_iff_ne.mpr hk]
        · simp [beq_eq_false_iff_ne.mpr hi, ih]

theorem dict_set_dict_set {α : Type} (m : List (String × α)) (k : String)
    (v w : α) :
    dict_set (dict_set m k v) k w = dict_set m k w := by
  induction m with
  | nil => simp [dict_set]
  | cons pr rest ih =>
      obtain ⟨k0, v0⟩ := pr
      by_cases h0 : k0 = k
      · subst h0; simp [dict_set]
      · simp [dict_set, beq_eq_false_iff_ne.mpr h0, ih]

theorem dict_get_some_key {α : Type} (m : List (String × α)) (k : String)
    (v : α) (h : dict_get m k = some v) : ∃ pr ∈ m, pr.1 = k := by
  induction m with
  | nil => simp [dict_get] at h
  | cons pr rest ih =>
      obtain ⟨k0, v0⟩ := pr
      by_cases h0 : k0 = k
      · exact ⟨(k0, v0), List.mem_cons_self _ _, h0⟩
      · simp only [dict_get, beq_eq_false_iff_ne.mpr h0, Bool.false_eq_true,
          if_false] at h
        obtain ⟨pr, hpr, hk⟩ := ih h
        exact ⟨pr, List.mem_cons_of_mem _ hpr, hk⟩

/-! ## Lemmas about the session-id rendering -/

theorem hex_digits_length (w : Nat) : ∀ n, (hex_digits w n).length = w := by
  induction w with
  | zero => intro n; rfl
  | succ w ih => intro n; simp [hex_digits, ih]

theorem hex_digit_is_hex : ∀ k, k < 16 → is_hex_char (hex_digit k) = true := by
  decide

theorem hex_digits_all_hex (w : Nat) :
    ∀ n c, c ∈ hex_digits w n → is_hex_char c = true := by
  induction w with
  | zero => intro n c hc; simp [hex_digits] at hc
  | succ w ih =>
      intro n c hc
      simp only [hex_digits, List.mem_append, List.mem_singleton] at hc
      rcases hc with hc | hc
      · exact ih _ _ hc
      · subst hc; exact hex_digit_is_hex _ (Nat.mod_lt _ (by decide))

theorem hex_char_ne_dash {c : Char} (h : is_hex_char c = true) :
    (c == '-') = false := by
  by_cases hc : c = '-'
  · subst hc; exact absurd h (by decide)
  · exact beq_eq_false_iff_ne.mpr hc

theorem filter_of_hex (l : List Char)
    (h : ∀ c ∈ l, is_hex_char c = true) :
    l.filter (fun c => !(c == '-')) = l := by
  apply List.filter_eq_self.mpr
  intro a ha
  simp [hex_char_ne_dash (h a ha)]

theorem session_id_chars (r : Nat) :
    py_replace_dash (uuid_string_chars r) = hex_digits 32 (uuid4_int r) := by
  have hhex : ∀ c ∈ hex_digits 32 (uuid4_int r), is_hex_char c = true :=
    hex_digits_all_hex 32 (uuid4_int r)
  unfold py_replace_dash uuid_string_chars
  simp only [List.filter_append]
  have hdash : List.filter (fun c => !(c == '-')) ['-'] = [] := by decide
  rw [hdash]
  have hpiece : ∀ l : List Char,
      (∀ c ∈ l, c ∈ hex_digits 32 (uuid4_int r)) →
      l.filter (fun c => !(c == '-')) = l := by
    intro l hl
    exact filter_of_hex l (fun c hc => hhex c (hl c hc))
  rw [hpiece _ (fun c hc => List.mem_of_mem_take hc),
      hpiece _ (fun c hc =>
        List.mem_of_mem_drop (List.mem_of_mem_take hc)),
      hpiece _ (fun c hc =>
        List.mem_of_mem_drop (List.mem_of_mem_take hc)),
      hpiece _ (fun c hc =>
        List.mem_of_mem_drop (List.mem_of_mem_take hc)),
      hpiece _ (fun c hc => List.mem_of_mem_drop hc)]
  have e20 : ((hex_digits 32 (uuid4_int r)).drop 16).take 4 ++
      (hex_digits 32 (uuid4_int r)).drop 20 =
      (hex_digits 32 (uuid4_int r)).drop 16 := by
    have hd : (hex_digits 32 (uuid4_int r)).drop 20 =
        ((hex_digits 32 (uuid4_int r)).drop 16).drop 4 := by
      rw [List.drop_drop]
    rw [hd, List.take_append_drop]
  have e16 : ((hex_digits 32 (uuid4_int r)).drop 12).take 4 ++
      (hex_digits 32 (uuid4_int r)).drop 16 =
      (hex_digits 32 (uuid4_int r)).drop 12 := by
    have hd : (hex_digits 32 (uuid4_int r)).drop 16 =
        ((hex_digits 32 (uuid4_int r)).drop 12).drop 4 := by
      rw [List.drop_drop]
    rw [hd, List.take_append_drop]
  have e12 : ((hex_digits 32 (uuid4_int r)).drop 8).take 4 ++
      (hex_digits 32 (uuid4_int r)).drop 12 =
      (hex_digits 32 (uuid4_int r)).drop 8 := by
    have hd : (hex_digits 32 (uuid4_int r)).drop 12 =
        ((hex_digits 32 (uuid4_int r)).drop 8).drop 4 := by
      rw [List.drop_drop]
    rw [hd, List.take_append_drop]
  simp only [List.nil_append, List.append_assoc]
  rw [e20, e16, e12, List.take_append_drop]

theorem string_mk_data (l : List Char) : (String.mk l).data = l := rfl

theorem string_mk_length (l : List Char) : (String.mk l).length = l.length := rfl

theorem session_id_data (r : Nat) :
    (session_id_of r).data = hex_digits 32 (uuid4_int r) := by
  have h1 : session_id_of r =
      String.mk (py_replace_dash (uuid_string_chars r)) := rfl
  rw [h1, string_mk_data, session_id_chars]

theorem session_id_length (r : Nat) : (session_id_of r).length = 32 := by
  have h1 : session_id_of r =
      String.mk (py_replace_dash (uuid_string_chars r)) := rfl
  rw [h1, string_mk_length, session_id_chars]
  exact hex_digits_length 32 _

theorem session_id_data_hex (r : Nat) :
    ∀ c ∈ (session_id_of r).data, is_hex_char c = true := by
  intro c hc
  rw [session_id_data] at hc
  exact hex_digits_all_hex 32 _ c hc

theorem session_id_ne_empty (r : Nat) : session_id_of r ≠ "" := by
  intro h
  have hl := session_id_length r
  rw [h] at hl
  exact absurd hl (by decide)

theorem session_id_beq_empty (r : Nat) : (session_id_of r == "") = false :=
  beq_eq_false_iff_ne.mpr (session_id_ne_empty r)

theorem handle_initialize_session_id (rand clock : Nat) (request : MCPRequest)
    (sessions : SessionMap) :
    ( handle_initialize rand clock request sessions).2.1 = session_id_of rand := rfl

theorem handle_initialize_sessions (rand clock : Nat) (request : MCPRequest)
    (sessions : SessionMap) :
    ( handle_initialize rand clock request sessions).2.2 =
      dict_set sessions (session_id_of rand)
        ⟨session_id_of rand, false, clock, clock⟩ := rfl

theorem accept_reject_step {σ : Type} (tools : List (String × Tool σ))
    (rand clock : Nat) (request : MCPRequest) (accept msid : Option String)
    (st : ServerState σ) (hacc : validate_accept_header accept = false) :
    handle_mcp_request tools rand clock request accept msid st =
      (not_acceptable_response, st) := by
  simp [handle_mcp_request, hacc]

theorem initialize_step {σ : Type} (tools : List (String × Tool σ))
    (rand clock : Nat) (request : MCPRequest) (accept msid : Option String)
    (st : ServerState σ) (hacc : validate_accept_header accept = true)
    (hm : request.method = "initialize") :
    handle_mcp_request tools rand clock request accept msid st =
      (sse_response (some (session_id_of rand))
        ( handle_initialize rand clock request st.sessions).1,
       { st with sessions := dict_set st.sessions (session_id_of rand)
                   ⟨session_id_of rand, false, clock, clock⟩ }) := by
  simp only [handle_mcp_request, hacc, Bool.not_true, Bool.false_eq_true,
    if_false, hm, beq_self_eq_true, if_true, handle_initialize_session_id,
    handle_initialize_sessions, session_id_beq_empty]

theorem get_session_of_none (clock : Nat) (sessions : SessionMap) (sid : String)
    (h : dict_get sessions sid = none) :
    get_session clock sessions sid = (none, sessions) := by
  simp [get_session, h]

theorem get_session_of_some (clock : Nat) (sessions : SessionMap) (sid : String)
    (s0 : MCPSession) (h : dict_get sessions sid = some s0) :
    get_session clock sessions sid =
      (some ⟨s0.session_id, s0.ready_for_operation, s0.created_at, clock⟩,
       dict_set sessions sid
         ⟨s0.session_id, s0.ready_for_operation, s0.created_at, clock⟩) := by
  simp [get_session, h]

theorem missing_sid_none_step {σ : Type} (tools : List (String × Tool σ))
    (rand clock : Nat) (request : MCPRequest) (accept : Option String)
    (st : ServerState σ) (hacc : validate_accept_header accept = true)
    (hm : request.method ≠ "initialize") :
    handle_mcp_request tools rand clock request accept none st =
      (missing_session_response, st) := by
  simp [handle_mcp_request, hacc, beq_eq_false_iff_ne.mpr hm]

theorem missing_sid_empty_step {σ : Type} (tools : List (String × Tool σ))
    (rand clock : Nat) (request : MCPRequest) (accept : Option String)
    (st : ServerState σ) (hacc : validate_accept_header accept = true)
    (hm : request.method ≠ "initialize") :
    handle_mcp_request tools rand clock request accept (some "") st =
      (missing_session_response, st) := by
  simp [handle_mcp_request, hacc, beq_eq_false_iff_ne.mpr hm]

theorem no_session_step {σ : Type} (tools : List (String × Tool σ))
    (rand clock : Nat) (request : MCPRequest) (accept : Option String)
    (sid : String) (st : ServerState σ)
    (hacc : validate_accept_header accept = true)
    (hm : request.method ≠ "initialize") (hsid : sid ≠ "")
    (hs : dict_get st.sessions sid = none) :
    handle_mcp_request tools rand clock request accept (some sid) st =
      ({ status := 400, headers := [], media_type := none,
         body := HttpBody.text "No valid session ID provided" }, st) := by
  simp [handle_mcp_request, hacc, beq_eq_false_iff_ne.mpr hm,
    beq_eq_false_iff_ne.mpr hsid, get_session_of_none clock st.sessions sid hs]

theorem notif_step {σ : Type} (tools : List (String × Tool σ))
    (rand clock : Nat) (request : MCPRequest) (accept : Option String)
    (sid : String) (st : ServerState σ) (s0 : MCPSession)
    (hacc : validate_accept_header accept = true)
    (hm : request.method = "notifications/initialized") (hsid : sid ≠ "")
    (hs : dict_get st.sessions sid = some s0) :
    handle_mcp_request tools rand clock request accept (some sid) st =
      ({ status := 202, headers := [("Mcp-Session-Id", s0.session_id)],
         media_type := none, body := HttpBody.empty },
       { st with sessions := dict_set st.sessions sid
                   ⟨s0.session_id, true, s0.created_at, clock⟩ }) := by
  have hm' : request.method ≠ "initialize" := by rw [hm]; decide
  simp [handle_mcp_request, hacc, beq_eq_false_iff_ne.mpr hm',
    beq_eq_false_iff_ne.mpr hsid, get_session_of_some clock st.sessions sid s0 hs,
    hm, dict_set_dict_set]

theorem not_ready_step {σ : Type} (tools : List (String × Tool σ))
    (rand clock : Nat) (request : MCPRequest) (accept : Option String)
    (sid : String) (st : ServerState σ) (s0 : MCPSession)
    (hacc : validate_accept_header accept = true)
    (hm1 : request.method ≠ "initialize")
    (hm2 : request.method ≠ "notifications/initialized") (hsid : sid ≠ "")
    (hs : dict_get st.sessions sid = some s0)
    (hready : s0.ready_for_operation = false) :
    handle_mcp_request tools rand clock request accept (some sid) st =
      (missing_session_response,
       { st with sessions := dict_set st.sessions sid
                   ⟨s0.session_id, false, s0.created_at, clock⟩ }) := by
  simp [handle_mcp_request, hacc, beq_eq_false_iff_ne.mpr hm1,
    beq_eq_false_iff_ne.mpr hm2, beq_eq_false_iff_ne.mpr hsid,
    get_session_of_some clock st.sessions sid s0 hs, hready]

theorem ready_sessions_step {σ : Type} (tools : List (String × Tool σ))
    (rand clock : Nat) (request : MCPRequest) (accept : Option String)
    (sid : String) (st : ServerState σ) (s0 : MCPSession)
    (hacc : validate_accept_header accept = true)
    (hm1 : request.method ≠ "initialize")
    (hm2 : request.method ≠ "notifications/initialized") (hsid : sid ≠ "")
    (hs : dict_get st.sessions sid = some s0)
    (hready : s0.ready_for_operation = true) :
    ((handle_mcp_request tools rand clock request accept (some sid) st).2).sessions =
      dict_set st.sessions sid ⟨s0.session_id, true, s0.created_at, clock⟩ := by
  by_cases hl : request.method = "tools/list"
  · simp [handle_mcp_request, hacc, beq_eq_false_iff_ne.mpr hm1,
      beq_eq_false_iff_ne.mpr hm2, beq_eq_false_iff_ne.mpr hsid,
      get_session_of_some clock st.sessions sid s0 hs, hready, hl]
  · by_cases hc : request.method = "tools/call"
    · simp [handle_mcp_request, hacc, beq_eq_false_iff_ne.mpr hm1,
        beq_eq_false_iff_ne.mpr hm2, beq_eq_false_iff_ne.mpr hsid,
        get_session_of_some clock st.sessions sid s0 hs, hready,
        beq_eq_false_iff_ne.mpr hl, hc]
    · simp [handle_mcp_request, hacc, beq_eq_false_iff_ne.mpr hm1,
        beq_eq_false_iff_ne.mpr hm2, beq_eq_false_iff_ne.mpr hsid,
        get_session_of_some clock st.sessions sid s0 hs, hready,
        beq_eq_false_iff_ne.mpr hl, beq_eq_false_iff_ne.mpr hc]

theorem flip_in_dict_set (m : SessionMap) (k : String) (v : MCPSession)
    (i : String) (s s' : MCPSession)
    (hs : dict_get m i = some s) (hsr : s.ready_for_operation = false)
    (hs' : dict_get (dict_set m k v) i = some s')
    (hs'r : s'.ready_for_operation = true) :
    k = i ∧ v.ready_for_operation = true := by
  rw [dict_get_dict_set] at hs'
  by_cases hk : k = i
  · refine ⟨hk, ?_⟩
    rw [if_pos (beq_iff_eq.mpr hk)] at hs'
    injection hs' with h
    rw [h]
    exact hs'r
  · exfalso
    rw [if_neg (by simp [hk])] at hs'
    rw [hs] at hs'
    injection hs' with h
    rw [← h] at hs'r
    rw [hsr] at hs'r
    exact Bool.noConfusion hs'r

theorem no_flip_same (m : SessionMap) (i : String) (s s' : MCPSession)
    (hs : dict_get m i = some s) (hsr : s.ready_for_operation = false)
    (hs' : dict_get m i = some s')
    (hs'r : s'.ready_for_operation = true) : False := by
  rw [hs] at hs'
  injection hs' with h
  rw [← h] at hs'r
  rw [hsr] at hs'r
  exact Bool.noConfusion hs'r

theorem new_in_dict_set (m : SessionMap) (k : String) (v : MCPSession)
    (i : String) (s' : MCPSession)
    (hs : dict_get m i = none)
    (hs' : dict_get (dict_set m k v) i = some s') :
    k = i ∧ s' = v := by
  rw [dict_get_dict_set] at hs'
  by_cases hk : k = i
  · refine ⟨hk, ?_⟩
    rw [if_pos (beq_iff_eq.mpr hk)] at hs'
    injection hs' with h
    exact h.symm
  · exfalso
    rw [if_neg (by simp [hk])] at hs'
    rw [hs] at hs'
    exact Option.noConfusion hs'

/-- C1: a session's `ready_for_operation` is false immediately after the
`initialize` request that created it, and it flips to true only through a
`notifications/initialized` request whose session-id header names that
exact session; no other handled request ever sets it to true. -/
theorem ready_flag_lifecycle {σ : Type} (tools : List (String × Tool σ))
    (rand clock : Nat) (request : MCPRequest) (accept msid : Option String)
    (st : ServerState σ) :
    (request.method = "initialize" → validate_accept_header accept = true →
      dict_get
        ((handle_mcp_request tools rand clock request accept msid st).2).sessions
        (session_id_of rand) =
        some ⟨session_id_of rand, false, clock, clock⟩) ∧
    (∀ i s s', dict_get st.sessions i = some s →
      s.ready_for_operation = false →
      dict_get
        ((handle_mcp_request tools rand clock request accept msid st).2).sessions
        i = some s' →
      s'.ready_for_operation = true →
      request.method = "notifications/initialized" ∧ msid = some i) ∧
    (∀ i s', dict_get st.sessions i = none →
      dict_get
        ((handle_mcp_request tools rand clock request accept msid st).2).sessions
        i = some s' →
      s'.ready_for_operation = false) := by
  refine ⟨?_, ?_, ?_⟩
  · intro hm hacc
    have h2 : ((handle_mcp_request tools rand clock request accept msid st).2).sessions
        = dict_set st.sessions (session_id_of rand)
            ⟨session_id_of rand, false, clock, clock⟩ := by
      rw [initialize_step tools rand clock request accept msid st hacc hm]
    rw [h2, dict_get_dict_set, if_pos (beq_iff_eq.mpr rfl)]
  · intro i s s' hs hsr hs' hs'r
    cases hacc : validate_accept_header accept with
    | false =>
        have h2 : ((handle_mcp_request tools rand clock request accept msid st).2)
            = st := by
          rw [accept_reject_step tools rand clock request accept msid st hacc]
        rw [h2] at hs'
        exact (no_flip_same st.sessions i s s' hs hsr hs' hs'r).elim
    | true =>
        by_cases hm : request.method = "initialize"
        · have h2 : ((handle_mcp_request tools rand clock request accept msid st).2).sessions
              = dict_set st.sessions (session_id_of rand)
                  ⟨session_id_of rand, false, clock, clock⟩ := by
            rw [initialize_step tools rand clock request accept msid st hacc hm]
          rw [h2] at hs'
          have hflip := flip_in_dict_set st.sessions (session_id_of rand) _ i s s'
            hs hsr hs' hs'r
          exact Bool.noConfusion hflip.2
        · cases msid with
          | none =>
              have h2 : ((handle_mcp_request tools rand clock request accept none st).2)
                  = st := by
                rw [missing_sid_none_step tools rand clock request accept st hacc hm]
              rw [h2] at hs'
              exact (no_flip_same st.sessions i s s' hs hsr hs' hs'r).elim
          | some sid =>
              by_cases hsid : sid = ""
              · subst hsid
                have h2 : ((handle_mcp_request tools rand clock request accept
                    (some "") st).2) = st := by
                  rw [missing_sid_empty_step tools rand clock request accept st hacc hm]
                rw [h2] at hs'
                exact (no_flip_same st.sessions i s s' hs hsr hs' hs'r).elim
              · cases hlook : dict_get st.sessions sid with
                | none =>
                    have h2 : ((handle_mcp_request tools rand clock request accept
                        (some sid) st).2) = st := by
                      rw [no_session_step tools rand clock request accept sid st
                        hacc hm hsid hlook]
                    rw [h2] at hs'
                    exact (no_flip_same st.sessions i s s' hs hsr hs' hs'r).elim
                | some s0 =>
                    by_cases hn : request.method = "notifications/initialized"
                    · have h2 : ((handle_mcp_request tools rand clock request accept
                          (some sid) st).2).sessions
                          = dict_set st.sessions sid
                              ⟨s0.session_id, true, s0.created_at, clock⟩ := by
                        rw [notif_step tools rand clock request accept sid st s0
                          hacc hn hsid hlook]
                      rw [h2] at hs'
                      have hflip := flip_in_dict_set st.sessions sid _ i s s'
                        hs hsr hs' hs'r
                      exact ⟨hn, by rw [hflip.1]⟩
                    · cases hready : s0.ready_for_operation with
                      | false =>
                          have h2 : ((handle_mcp_request tools rand clock request
                              accept (some sid) st).2).sessions
                              = dict_set st.sessions sid
                                  ⟨s0.session_id, false, s0.created_at, clock⟩ := by
                            rw [not_ready_step tools rand clock request accept sid st
                              s0 hacc hm hn hsid hlook hready]
                          rw [h2] at hs'
                          have hflip := flip_in_dict_set st.sessions sid _ i s s'
                            hs hsr hs' hs'r
                          exact Bool.noConfusion hflip.2
                      | true =>
                          have h2 := ready_sessions_step tools rand clock request
                            accept sid st s0 hacc hm hn hsid hlook hready
                          rw [h2] at hs'
                          have hflip := flip_in_dict_set st.sessions sid _ i s s'
                            hs hsr hs' hs'r
                          exfalso
                          have hi : sid = i := hflip.1
                          rw [hi] at hlook
                          rw [hlook] at hs
                          injection hs with h
                          rw [← h] at hsr
                          rw [hready] at hsr
                          exact Bool.noConfusion hsr
  · intro i s' hs hs'
    cases hacc : validate_accept_header accept with
    | false =>
        have h2 : ((handle_mcp_request tools rand clock request accept msid st).2)
            = st := by
          rw [accept_reject_step tools rand clock request accept msid st hacc]
        rw [h2, hs] at hs'
        exact Option.noConfusion hs'
    | true =>
        by_cases hm : request.method = "initialize"
        · have h2 : ((handle_mcp_request tools rand clock request accept msid st).2).sessions
              = dict_set st.sessions (session_id_of rand)
                  ⟨session_id_of rand, false, clock, clock⟩ := by
            rw [initialize_step tools rand clock request accept msid st hacc hm]
          rw [h2] at hs'
          have hnew := new_in_dict_set st.sessions (session_id_of rand) _ i s' hs hs'
          rw [hnew.2]
        · cases msid with
          | none =>
              have h2 : ((handle_mcp_request tools rand clock request accept none st).2)
                  = st := by
                rw [missing_sid_none_step tools rand clock request accept st hacc hm]
              rw [h2, hs] at hs'
              exact Option.noConfusion hs'
          | some sid =>
              by_cases hsid : sid = ""
              · subst hsid
                have h2 : ((handle_mcp_request tools rand clock request accept
                    (some "") st).2) = st := by
                  rw [missing_sid_empty_step tools rand clock request accept st hacc hm]
                rw [h2, hs] at hs'
                exact Option.noConfusion hs'
              · cases hlook : dict_get st.sessions sid with
                | none =>
                    have h2 : ((handle_mcp_request tools rand clock request accept
                        (some sid) st).2) = st := by
                      rw [no_session_step tools rand clock request accept sid st
                        hacc hm hsid hlook]
                    rw [h2, hs] at hs'
                    exact Option.noConfusion hs'
                | some s0 =>
                    by_cases hn : request.method = "notifications/initialized"
                    · have h2 : ((handle_mcp_request tools rand clock request accept
                          (some sid) st).2).sessions
                          = dict_set st.sessions sid
                              ⟨s0.session_id, true, s0.created_at, clock⟩ := by
                        rw [notif_step tools rand clock request accept sid st s0
                          hacc hn hsid hlook]
                      rw [h2] at hs'
                      have hnew := new_in_dict_set st.sessions sid _ i s' hs hs'
                      exfalso
                      rw [hnew.1] at hlook
                      rw [hs] at hlook
                      exact Option.noConfusion hlook
                    · cases hready : s0.ready_for_operation with
                      | false =>
                          have h2 : ((handle_mcp_request tools rand clock request
                              accept (some sid) st).2).sessions
                              = dict_set st.sessions sid
                                  ⟨s0.session_id, false, s0.created_at, clock⟩ := by
                            rw [not_ready_step tools rand clock request accept sid st
                              s0 hacc hm hn hsid hlook hready]
                          rw [h2] at hs'
                          have hnew := new_in_dict_set st.sessions sid _ i s' hs hs'
                          exfalso
                          rw [hnew.1] at hlook
                          rw [hs] at hlook
                          exact Option.noConfusion hlook
                      | true =>
                          have h2 := ready_sessions_step tools rand clock request
                            accept sid st s0 hacc hm hn hsid hlook hready
                          rw [h2] at hs'
                          have hnew := new_in_dict_set st.sessions sid _ i s' hs hs'
                          exfalso
                          rw [hnew.1] at hlook
                          rw [hs] at hlook
                          exact Option.noConfusion hlook

theorem ready_flag_lifecycle_witness :
    dict_get
      ((handle_mcp_request demo_registry 0 0
        ⟨Json.num 1, "initialize", none⟩
        (some "application/json, text/event-stream") none
        ⟨[], 0⟩).2).sessions (session_id_of 0) =
      some ⟨session_id_of 0, false, 0, 0⟩ :=
  (ready_flag_lifecycle demo_registry 0 0
    ⟨Json.num 1, "initialize", none⟩
    (some "application/json, text/event-stream") none ⟨[], 0⟩).1 rfl (by decide)

/-- C2: a `tools/call` naming a registered tool always gets a `result`
response and never an `error` field: the returned text on success, the
`isError: true` content on an execution failure. -/
theorem tools_call_registered_always_result {σ : Type}
    (tools : List (String × Tool σ)) (request : MCPRequest) (us : σ)
    (p : JObj) (n : String) (tool : Tool σ)
    (hp : request.params = some p) (hne : p ≠ [])
    (hn : jget p "name" = some (Json.str n))
    (hkeys : ∀ pr ∈ tools, pr.1 ≠ "")
    (hl : dict_get tools n = some tool) :
    (handle_tools_call tools request us).1.error = none ∧
    (∀ t s1,
      tool.execute ((jget p "arguments").getD (Json.obj [])) us =
        (Except.ok t, s1) →
      handle_tools_call tools request us =
        ({ id := request.id, result := some (tool_call_success t),
           error := none }, s1)) ∧
    (∀ e s1,
      tool.execute ((jget p "arguments").getD (Json.obj [])) us =
        (Except.error e, s1) →
      handle_tools_call tools request us =
        ({ id := request.id, result := some (tool_call_failure e),
           error := none }, s1)) := by
  have hn0 : n ≠ "" := by
    obtain ⟨pr, hpr, hk⟩ := dict_get_some_key tools n tool hl
    rw [← hk]
    exact hkeys pr hpr
  have hpe : p.isEmpty = false := by
    cases p with
    | nil => exact absurd rfl hne
    | cons a l => rfl
  have hcall : handle_tools_call tools request us =
      match tool.execute ((jget p "arguments").getD (Json.obj [])) us with
      | (Except.ok text, us') =>
          ({ id := request.id, result := some (tool_call_success text),
             error := none }, us')
      | (Except.error e, us') =>
          ({ id := request.id, result := some (tool_call_failure e),
             error := none }, us') := by
    simp only [handle_tools_call, hp, py_truthy_obj, hpe, Bool.not_false,
      Bool.not_true, Bool.false_eq_true, if_false, Option.getD_some, hn,
      py_truthy_get, py_falsy, beq_eq_false_iff_ne.mpr hn0, tool_lookup, hl]
  refine ⟨?_, ?_, ?_⟩
  · rw [hcall]
    rcases hexec : tool.execute ((jget p "arguments").getD (Json.obj [])) us
      with ⟨res, s1⟩
    cases res with
    | ok t => rfl
    | error e => rfl
  · intro t s1 hexec
    rw [hcall, hexec]
  · intro e s1 hexec
    rw [hcall, hexec]

theorem tools_call_registered_always_result_witness :
    (handle_tools_call demo_registry
      ⟨Json.num 2, "tools/call", some [("name", Json.str "get_user_by_id")]⟩
      0).1.error = none ∧
    handle_tools_call demo_registry
      ⟨Json.num 2, "tools/call", some [("name", Json.str "get_user_by_id")]⟩
      0 =
      ({ id := Json.num 2,
         result := some (tool_call_success "ran get_user_by_id"),
         error := none }, 1) := by
  have hkeys : ∀ pr ∈ demo_registry, pr.1 ≠ "" := by
    intro pr hpr
    have hd : demo_registry =
        [("get_user_by_id", demo_tool "get_user_by_id"),
         ("search_users", demo_tool "search_users"),
         ("add_user", demo_tool "add_user"),
         ("update_user", demo_tool "update_user"),
         ("delete_users", demo_tool "delete_users")] := rfl
    rw [hd] at hpr
    simp only [List.mem_cons, List.not_mem_nil, or_false] at hpr
    rcases hpr with rfl | rfl | rfl | rfl | rfl <;> decide
  have h := tools_call_registered_always_result demo_registry
    ⟨Json.num 2, "tools/call", some [("name", Json.str "get_user_by_id")]⟩
    0 [("name", Json.str "get_user_by_id")] "get_user_by_id"
    (demo_tool "get_user_by_id") rfl (List.cons_ne_nil _ _) rfl hkeys rfl
  exact ⟨h.1, h.2.1 "ran get_user_by_id" 1 rfl⟩

/-- C3: `handle_initialize` does not negotiate the protocol version: an
unsupported client-proposed version (here `1.0`) is echoed back verbatim,
although the unused `_validate_protocol_version` helper would have
substituted the server's own `2024-11-05`. -/
theorem initialize_version_not_negotiated :
    init_result_protocol_version
      ( handle_initialize 0 0
        ⟨Json.num 1, "initialize", some [("protocolVersion", Json.str "1.0")]⟩
        []).1 = some (Json.str "1.0") ∧
    validate_protocol_version "1.0" = "2024-11-05" ∧
    ("1.0" : String) ≠ "2024-11-05" :=
  ⟨rfl, rfl, by decide⟩

/-- C4: the validation errors of `handle_tools_call` carry the positive
codes `32602`/`32601`, not the JSON-RPC codes `-32602`/`-32601` that the
inline documentation states; an unregistered tool name is still rejected
without touching the user-service state. -/
theorem tools_call_error_codes_positive :
    handle_tools_call demo_registry ⟨Json.num 7, "tools/call", none⟩ 0 =
      ({ id := Json.num 7, result := none,
         error := some ⟨32602, "Missing parameters"⟩ }, 0) ∧
    handle_tools_call demo_registry
      ⟨Json.num 7, "tools/call", some [("arguments", Json.obj [])]⟩ 0 =
      ({ id := Json.num 7, result := none,
         error := some ⟨32602, "Missing required parameter: name"⟩ }, 0) ∧
    handle_tools_call demo_registry
      ⟨Json.num 7, "tools/call", some [("name", Json.str "nope")]⟩ 0 =
      ({ id := Json.num 7, result := none,
         error := some ⟨32601, "Tool \x27nope\x27 not found"⟩ }, 0) ∧
    (32602 : Int) ≠ -32602 ∧ (32601 : Int) ≠ -32601 :=
  ⟨rfl, rfl, rfl, by decide, by decide⟩

/-- C5 (amended): a request other than `initialize` and
`notifications/initialized` on an existing but not-ready session gets
HTTP 400 with the JSON-RPC error -32600 "Missing session ID", delivered
as a plain JSON body (media type `application/json`), not SSE-framed; in
particular `tools/call` before readiness never yields a tool result. -/
theorem not_ready_plain_json_error {σ : Type}
    (tools : List (String × Tool σ)) (rand clock : Nat)
    (request : MCPRequest) (accept : Option String) (sid : String)
    (st : ServerState σ) (s0 : MCPSession)
    (hacc : validate_accept_header accept = true)
    (hm1 : request.method ≠ "initialize")
    (hm2 : request.method ≠ "notifications/initialized")
    (hsid : sid ≠ "")
    (hs : dict_get st.sessions sid = some s0)
    (hready : s0.ready_for_operation = false) :
    (handle_mcp_request tools rand clock request accept (some sid) st).1 =
      missing_session_response ∧
    missing_session_response.status = 400 ∧
    missing_session_response.media_type = some "application/json" ∧
    is_sse_body missing_session_response.body = false ∧
    missing_session_response.body =
      HttpBody.json_resp (server_error_response (-32600) "Missing session ID") := by
  refine ⟨?_, rfl, rfl, rfl, rfl⟩
  rw [not_ready_step tools rand clock request accept sid st s0 hacc hm1 hm2
    hsid hs hready]

theorem not_ready_plain_json_error_witness :
    (handle_mcp_request demo_registry 0 0 ⟨Json.num 3, "tools/list", none⟩
       (some "application/json, text/event-stream") (some "abc")
       ⟨[("abc", ⟨"abc", false, 0, 0⟩)], 0⟩).1 = missing_session_response := by
  have h := not_ready_plain_json_error demo_registry 0 0
    ⟨Json.num 3, "tools/list", none⟩
    (some "application/json, text/event-stream") "abc"
    ⟨[("abc", ⟨"abc", false, 0, 0⟩)], 0⟩ ⟨"abc", false, 0, 0⟩
    (by decide) (by decide) (by decide) (by decide) rfl rfl
  exact h.1

/-- C5 counterexample: a `tools/call` on an existing not-ready session is
answered 400 with the -32600 error, but the body is a plain JSON
response, not the SSE-framed one the claim states. -/
theorem not_ready_sse_counterexample :
    (handle_mcp_request demo_registry 0 0
       ⟨Json.num 3, "tools/call", some [("name", Json.str "get_user_by_id")]⟩
       (some "application/json, text/event-stream") (some "abc")
       ⟨[("abc", ⟨"abc", false, 0, 0⟩)], 0⟩).1.status = 400 ∧
    (handle_mcp_request demo_registry 0 0
       ⟨Json.num 3, "tools/call", some [("name", Json.str "get_user_by_id")]⟩
       (some "application/json, text/event-stream") (some "abc")
       ⟨[("abc", ⟨"abc", false, 0, 0⟩)], 0⟩).1.body =
      HttpBody.json_resp (server_error_response (-32600) "Missing session ID") ∧
    is_sse_body
      (handle_mcp_request demo_registry 0 0
        ⟨Json.num 3, "tools/call", some [("name", Json.str "get_user_by_id")]⟩
        (some "application/json, text/event-stream") (some "abc")
        ⟨[("abc", ⟨"abc", false, 0, 0⟩)], 0⟩).1.body = false ∧
    (handle_mcp_request demo_registry 0 0
       ⟨Json.num 3, "tools/call", some [("name", Json.str "get_user_by_id")]⟩
       (some "application/json, text/event-stream") (some "abc")
       ⟨[("abc", ⟨"abc", false, 0, 0⟩)], 0⟩).1.media_type =
      some "application/json" :=
  ⟨rfl, rfl, rfl, rfl⟩

/-- C6: the Accept header is accepted exactly under the spec's
split/trim/lowercase substring condition, and a rejected header yields
HTTP 406 with a plain JSON (not SSE-framed) -32600 error and no session
or method handling (the state is untouched). -/
theorem accept_header_negotiation {σ : Type}
    (tools : List (String × Tool σ)) (rand clock : Nat)
    (request : MCPRequest) (accept msid : Option String)
    (st : ServerState σ) :
    validate_accept_header accept = accept_header_spec accept ∧
    (validate_accept_header accept = false →
      (handle_mcp_request tools rand clock request accept msid st).1.status
        = 406 ∧
      (handle_mcp_request tools rand clock request accept msid st).1.media_type
        = some "application/json" ∧
      is_sse_body
        (handle_mcp_request tools rand clock request accept msid st).1.body
        = false ∧
      (handle_mcp_request tools rand clock request accept msid st).1.body =
        HttpBody.json_resp (server_error_response (-32600)
          "Client must accept both application/json and text/event-stream") ∧
      (handle_mcp_request tools rand clock request accept msid st).2 = st) := by
  constructor
  · cases accept with
    | none => rfl
    | some h =>
        by_cases hh : h = ""
        · subst hh; decide
        · simp only [validate_accept_header, accept_header_spec,
            beq_eq_false_iff_ne.mpr hh, Bool.false_eq_true, if_false]
  · intro hacc
    refine ⟨?_, ?_, ?_, ?_, ?_⟩
    all_goals rw [accept_reject_step tools rand clock request accept msid st hacc]
    all_goals rfl

theorem accept_header_negotiation_witness :
    (handle_mcp_request demo_registry 0 0 ⟨Json.num 1, "tools/list", none⟩
      none none ⟨[], 0⟩).1.status = 406 ∧
    (handle_mcp_request demo_registry 0 0 ⟨Json.num 1, "tools/list", none⟩
      none none ⟨[], 0⟩).2 = ⟨[], 0⟩ := by
  have h := accept_header_negotiation demo_registry 0 0
    ⟨Json.num 1, "tools/list", none⟩ none none ⟨[], 0⟩
  exact ⟨(h.2 rfl).1, (h.2 rfl).2.2.2.2⟩

/-- C7: every `initialize` request creates a fresh session whose id is a
32-hex-character token, with `ready_for_operation` false and the creation
time recorded, stores it in the session map under that id, and emits the
id in the `Mcp-Session-Id` response header. -/
theorem initialize_creates_session {σ : Type}
    (tools : List (String × Tool σ)) (rand clock : Nat)
    (request : MCPRequest) (accept msid : Option String) (st : ServerState σ)
    (hm : request.method = "initialize")
    (hacc : validate_accept_header accept = true) :
    (session_id_of rand).length = 32 ∧
    (∀ c ∈ (session_id_of rand).data, is_hex_char c = true) ∧
    dict_get
      ((handle_mcp_request tools rand clock request accept msid st).2).sessions
      (session_id_of rand) =
      some ⟨session_id_of rand, false, clock, clock⟩ ∧
    ("Mcp-Session-Id", session_id_of rand) ∈
      (handle_mcp_request tools rand clock request accept msid st).1.headers := by
  refine ⟨session_id_length rand, session_id_data_hex rand, ?_, ?_⟩
  · have h2 : ((handle_mcp_request tools rand clock request accept msid st).2).sessions
        = dict_set st.sessions (session_id_of rand)
            ⟨session_id_of rand, false, clock, clock⟩ := by
      rw [initialize_step tools rand clock request accept msid st hacc hm]
    rw [h2, dict_get_dict_set, if_pos (beq_iff_eq.mpr rfl)]
  · have h1 : (handle_mcp_request tools rand clock request accept msid st).1
        = sse_response (some (session_id_of rand))
            ( handle_initialize rand clock request st.sessions).1 := by
      rw [initialize_step tools rand clock request accept msid st hacc hm]
    rw [h1]
    simp [sse_response]

theorem initialize_creates_session_witness :
    (session_id_of 0).length = 32 ∧
    ("Mcp-Session-Id", session_id_of 0) ∈
      (handle_mcp_request demo_registry 0 0 ⟨Json.num 1, "initialize", none⟩
        (some "application/json, text/event-stream") none ⟨[], 0⟩).1.headers := by
  have h := initialize_creates_session demo_registry 0 0
    ⟨Json.num 1, "initialize", none⟩
    (some "application/json, text/event-stream") none ⟨[], 0⟩ rfl (by decide)
  exact ⟨h.1, h.2.2.2⟩

/-- C8: the SSE framer emits exactly one `data: <payload>\n\n` frame per
message, in input order, followed by exactly one `data: [DONE]\n\n`
sentinel; the empty sequence produces only the sentinel. -/
theorem sse_stream_frames {α : Type} (serialize : α → String)
    (messages : List α) :
    create_sse_stream serialize messages =
      messages.map (fun m => "data: " ++ serialize m ++ "\n\n") ++
        ["data: [DONE]\n\n"] ∧
    create_sse_stream serialize ([] : List α) = ["data: [DONE]\n\n"] := by
  constructor
  · induction messages with
    | nil => rfl
    | cons m rest ih => simp [create_sse_stream, ih]
  · rfl

/-- C9: `notifications/initialized` is idempotent: for an existing
session, both the first and a second notification answer HTTP 202 with an
empty body and the `Mcp-Session-Id` header, and the session is ready
after each. -/
theorem notifications_initialized_idempotent {σ : Type}
    (tools : List (String × Tool σ)) (rand clock1 clock2 : Nat)
    (request : MCPRequest) (accept : Option String) (sid : String)
    (st : ServerState σ) (s0 : MCPSession)
    (hacc : validate_accept_header accept = true)
    (hm : request.method = "notifications/initialized")
    (hsid : sid ≠ "") (hs : dict_get st.sessions sid = some s0) :
    (handle_mcp_request tools rand clock1 request accept (some sid) st).1.status
      = 202 ∧
    (handle_mcp_request tools rand clock1 request accept (some sid) st).1.body
      = HttpBody.empty ∧
    ("Mcp-Session-Id", s0.session_id) ∈
      (handle_mcp_request tools rand clock1 request accept (some sid) st).1.headers ∧
    dict_get
      ((handle_mcp_request tools rand clock1 request accept (some sid) st).2).sessions
      sid = some ⟨s0.session_id, true, s0.created_at, clock1⟩ ∧
    (handle_mcp_request tools rand clock2 request accept (some sid)
      (handle_mcp_request tools rand clock1 request accept (some sid) st).2).1.status
      = 202 ∧
    (handle_mcp_request tools rand clock2 request accept (some sid)
      (handle_mcp_request tools rand clock1 request accept (some sid) st).2).1.body
      = HttpBody.empty ∧
    ("Mcp-Session-Id", s0.session_id) ∈
      (handle_mcp_request tools rand clock2 request accept (some sid)
        (handle_mcp_request tools rand clock1 request accept (some sid) st).2).1.headers ∧
    dict_get
      ((handle_mcp_request tools rand clock2 request accept (some sid)
        (handle_mcp_request tools rand clock1 request accept (some sid) st).2).2).sessions
      sid = some ⟨s0.session_id, true, s0.created_at, clock2⟩ := by
  have h1 := notif_step tools rand clock1 request accept sid st s0 hacc hm hsid hs
  have hs1 : dict_get
      ((handle_mcp_request tools rand clock1 request accept (some sid) st).2).sessions
      sid = some ⟨s0.session_id, true, s0.created_at, clock1⟩ := by
    simp only [h1]
    rw [dict_get_dict_set, if_pos (beq_iff_eq.mpr rfl)]
  have h2 := notif_step tools rand clock2 request accept sid
    (handle_mcp_request tools rand clock1 request accept (some sid) st).2
    ⟨s0.session_id, true, s0.created_at, clock1⟩ hacc hm hsid hs1
  refine ⟨?_, ?_, ?_, hs1, ?_, ?_, ?_, ?_⟩
  · simp only [h1]
  · simp only [h1]
  · simp only [h1]
    exact List.mem_singleton.mpr rfl
  · simp only [h2]
  · simp only [h2]
  · simp only [h2]
    exact List.mem_singleton.mpr rfl
  · simp only [h2]
    rw [dict_get_dict_set, if_pos (beq_iff_eq.mpr rfl)]

theorem notifications_initialized_idempotent_witness :
    (handle_mcp_request demo_registry 0 1
      ⟨Json.num 4, "notifications/initialized", none⟩
      (some "application/json, text/event-stream") (some "abc")
      ⟨[("abc", ⟨"abc", false, 0, 0⟩)], 0⟩).1.status = 202 ∧
    dict_get
      ((handle_mcp_request demo_registry 0 2
        ⟨Json.num 4, "notifications/initialized", none⟩
        (some "application/json, text/event-stream") (some "abc")
        (handle_mcp_request demo_registry 0 1
          ⟨Json.num 4, "notifications/initialized", none⟩
          (some "application/json, text/event-stream") (some "abc")
          ⟨[("abc", ⟨"abc", false, 0, 0⟩)], 0⟩).2).2).sessions
      "abc" = some ⟨"abc", true, 0, 2⟩ := by
  have h := notifications_initialized_idempotent demo_registry 0 1 2
    ⟨Json.num 4, "notifications/initialized", none⟩
    (some "application/json, text/event-stream") "abc"
    ⟨[("abc", ⟨"abc", false, 0, 0⟩)], 0⟩ ⟨"abc", false, 0, 0⟩
    (by decide) rfl (by decide) rfl
  exact ⟨h.1, h.2.2.2.2.2.2.2⟩

/-- C10: in `handle_initialize`, a non-empty `params` lacking
`protocolVersion` makes the result's `protocolVersion` entry `null`; the
server's own `2024-11-05` is used only when `params` is absent or empty;
otherwise the client-proposed value is passed through unchecked. -/
theorem initialize_protocol_version_passthrough (rand clock : Nat)
    (request : MCPRequest) (sessions : SessionMap) :
    (∀ p, request.params = some p → p ≠ [] →
      jget p "protocolVersion" = none →
      init_result_protocol_version
        ( handle_initialize rand clock request sessions).1 = some Json.null) ∧
    ((request.params = none ∨ request.params = some []) →
      init_result_protocol_version
        ( handle_initialize rand clock request sessions).1 =
        some (Json.str "2024-11-05")) ∧
    (∀ p v, request.params = some p → p ≠ [] →
      jget p "protocolVersion" = some v →
      init_result_protocol_version
        ( handle_initialize rand clock request sessions).1 = some v) := by
  refine ⟨?_, ?_, ?_⟩
  · intro p hp hne hv
    have hpe : p.isEmpty = false := by
      cases p with
      | nil => exact absurd rfl hne
      | cons a l => rfl
    simp only [jget] at hv
    simp [ handle_initialize, init_result_protocol_version, py_truthy_obj,
      hp, hpe, hv, jget, dict_get]
  · intro hp
    rcases hp with hp | hp <;>
      simp [ handle_initialize, init_result_protocol_version, py_truthy_obj,
        hp, jget, dict_get, server_protocol_version]
  · intro p v hp hne hv
    have hpe : p.isEmpty = false := by
      cases p with
      | nil => exact absurd rfl hne
      | cons a l => rfl
    simp only [jget] at hv
    simp [ handle_initialize, init_result_protocol_version, py_truthy_obj,
      hp, hpe, hv, jget, dict_get]

theorem initialize_protocol_version_passthrough_witness :
    init_result_protocol_version
      ( handle_initialize 0 0
        ⟨Json.num 1, "initialize", some [("foo", Json.num 1)]⟩ []).1 =
      some Json.null :=
  (initialize_protocol_version_passthrough 0 0
    ⟨Json.num 1, "initialize", some [("foo", Json.num 1)]⟩ []).1
    [("foo", Json.num 1)] rfl (List.cons_ne_nil _ _) rfl
